import Mathlib

/-!
Shallow embedding of the vpower battery-telemetry daemon (src/main.rs,
src/sensors.rs) and verification of its specification claims.

Modelling conventions:
- `f64` values are modelled as `ℚ`; every value delivered by the telemetry
  readers is guaranteed finite by `read_battery_f64`, so the rational model is
  faithful on the reachable inputs of the per-tick derivations.
- `Option` mirrors Rust's `Option`; a Rust `panic!`/`expect` outcome is made
  explicit with the `Fallible` type.
- The sysfs strings ("Connected", "Disconnected", "Full", ...) are kept as
  `String`, exactly as the source manipulates `&str` values.
-/

namespace VPower

/-- Outcome of a Rust expression that can panic: either a value or a fatal
abort carrying the panic message. -/
inductive Fallible (α : Type) where
  | ok : α → Fallible α
  | fatal : String → Fallible α
  deriving DecidableEq, Repr

/-- PD power in watts, from the match in main.rs lines 275-278:
`pdvl * pdam` when both sensor readings are available, `0.0` otherwise. -/
def pdPower (pdvl pdam : Option ℚ) : ℚ :=
  match pdvl, pdam with
  | some v, some a => v * a
  | _, _ => 0

/-- Derivation of `ac_status` (main.rs lines 270-304). `pdcs` is the PD
contract status byte; bit 0 is "connected", bit 4 cleared means the device is
the power sink. `online` is the content of the AC node's `online` file and
`status` the battery hardware status string. -/
def acStatus (pdcs : Option Nat) (pdvl pdam : Option ℚ)
    (prevAcStatus online status : Option String) : Option String :=
  match pdcs with
  | some p =>
      if p.testBit 0 && !p.testBit 4 then
        if prevAcStatus ≠ some "Disconnected"
            ∧ 0 < pdPower pdvl pdam ∧ pdPower pdvl pdam < 30 then
          some "Connected slow"
        else
          some "Connected"
      else
        some "Disconnected"
  | none =>
      match online with
      | some "0" => some "Disconnected"
      | some "1" => some "Connected"
      | none =>
          (match status with
           | some "Full" => some "Connected"
           | some "Charging" => some "Connected"
           | some "Discharging" => some "Disconnected"
           | _ => none)
      | some _ => some "Disconnected"

/-- Derivation of `battery_percent` (main.rs lines 307-310). -/
def batteryPercent (chargeNow chargeFull : Option ℚ) : Option ℚ :=
  match chargeNow, chargeFull with
  | some n, some f => some (n / f * 100)
  | _, _ => none

/-- Derivation of `battery_status` (main.rs lines 313-337), including the
percent-trend heuristic fallback via `partial_cmp` (total on the finite values
the readers deliver). -/
def batteryStatus (ac status : Option String)
    (bp prevBp : Option ℚ) : Option String :=
  match ac, status with
  | _, some "Full" => some "Full"
  | _, some "Discharging" => some "Discharging"
  | some "Connected", some "Charging" => some "Charging"
  | _, _ =>
      let ordering : Option Ordering :=
        match bp, prevBp with
        | some l, some r =>
            some (if l < r then Ordering.lt
                  else if r < l then Ordering.gt else Ordering.eq)
        | _, _ => none
      match ordering with
      | some Ordering.lt => some "Discharging"
      | some Ordering.gt => some "Charging"
      | _ => if bp.getD 0 ≥ 89.5 then some "Full" else none

/-- Derivation of `charge_shutdown` (main.rs lines 258-261):
`charge_full * (request_shutdown_battery_percent / 100.0)`. -/
def chargeShutdown (chargeFull : Option ℚ) (rsbp : ℚ) : Option ℚ :=
  chargeFull.map (fun cf => cf * (rsbp / 100))

/-- Derivation of `power_now` (main.rs lines 263-267). The source calls
`power_now_from_file.expect(..)` in the `(Some, None)` arm, which panics when
that reading is absent; the panic is modelled by `Fallible.fatal` carrying the
source's expect message. -/
def powerNow (voltageNow currentNow powerNowFromFile : Option ℚ) :
    Fallible (Option ℚ) :=
  match voltageNow, currentNow with
  | some v, some c => Fallible.ok (some (v * c))
  | some v, none =>
      (match powerNowFromFile with
       | some p => Fallible.ok (some (p * v))
       | none =>
          Fallible.fatal "Error: Missing necessary data: power_now_from_file")
  | _, _ => Fallible.ok none

/-- Derivation of `secs_until_battery_full` (main.rs lines 340-348). -/
def secsUntilBatteryFull (chargeFull chargeNow voltageMinDesign pn : Option ℚ) :
    Option ℚ :=
  match chargeFull, chargeNow, voltageMinDesign, pn with
  | some cf, some cn, some vmd, some p => some ((cf - cn) * vmd / p * 3600)
  | _, _, _, _ => none

/-- Derivation of `secs_until_shutdown_request` (main.rs lines 350-372). -/
def secsUntilShutdownRequest (chargeNow chargeShutdownVal vmd pn : Option ℚ)
    (ac : Option String) : Option ℚ :=
  match chargeNow, chargeShutdownVal, vmd, pn with
  | some cn, some cs, some v, some p =>
      if cn > cs then
        some ((cn - cs) * v / p * 3600)
      else
        (match ac with
         | some "Connected" => some 1
         | _ => some 0)
  | _, _, _, _ => none

/-- Result of reading and parsing one sysfs value for `read_battery_f64`
(main.rs lines 41-66): the file read can fail (`readErr`), the content can
fail to parse as a float (`parseErr`), parse to a non-finite value
(`nonFinite`), or parse to a finite value (`finiteVal`). -/
inductive ReadOutcome where
  | readErr (msg : String)
  | parseErr (msg : String)
  | nonFinite (shown : String)
  | finiteVal (val : ℚ)
  deriving DecidableEq, Repr

/-- Diagnostic events emitted on stderr by the telemetry readers: `readWarn`
for an unreadable path (deduplicated through the `failed` set), `parseWarn`
for an unparsable value and `finiteWarn` for a non-finite value (both emitted
unconditionally). -/
inductive LogEvent where
  | readWarn (path : String)
  | parseWarn (path : String)
  | finiteWarn (path : String)
  deriving DecidableEq, Repr

/-- Embedding of `read_battery_f64` (main.rs lines 41-66). The global
`failed : Mutex<HashSet<String>>` of already-warned paths is passed as an
explicit `Finset String`; the function returns the parsed value, the
diagnostics it printed, and the updated set. -/
def readBatteryF64 (path : String) (outcome : ReadOutcome)
    (failed : Finset String) : Option ℚ × List LogEvent × Finset String :=
  match outcome with
  | ReadOutcome.readErr _ =>
      if path ∈ failed then (none, [], failed)
      else (none, [LogEvent.readWarn path], insert path failed)
  | ReadOutcome.parseErr _ => (none, [LogEvent.parseWarn path], failed)
  | ReadOutcome.nonFinite _ => (none, [LogEvent.finiteWarn path], failed)
  | ReadOutcome.finiteVal v => (some v, [], failed)

/-- Embedding of `read_battery_string` (main.rs lines 27-39): same
deduplicated warning on a read error, no parsing step. -/
def readBatteryString (path : String) (outcome : Option String)
    (failed : Finset String) : Option String × List LogEvent × Finset String :=
  match outcome with
  | none =>
      if path ∈ failed then (none, [], failed)
      else (none, [LogEvent.readWarn path], insert path failed)
  | some s => (some s, [], failed)

/-- One telemetry read performed during the life of the process, with the
outcome the filesystem produces for it. -/
inductive ReadOp where
  | f64 (path : String) (outcome : ReadOutcome)
  | str (path : String) (outcome : Option String)
  deriving DecidableEq, Repr

/-- Runs a sequence of telemetry reads, threading the already-warned set as
the process does across its whole life, and collects every diagnostic. -/
def runReads : List ReadOp → Finset String → List LogEvent × Finset String
  | [], failed => ([], failed)
  | op :: rest, failed =>
      let step :=
        match op with
        | ReadOp.f64 p o => (readBatteryF64 p o failed).2
        | ReadOp.str p o => (readBatteryString p o failed).2
      let next := runReads rest step.2
      (step.1 ++ next.1, next.2)

/-- Whether a read op is a present-but-malformed `f64` read of path `p`
(unparsable content or a non-finite parsed value). -/
def isMalformed (p : String) : ReadOp → Bool
  | ReadOp.f64 q (ReadOutcome.parseErr _) => q = p
  | ReadOp.f64 q (ReadOutcome.nonFinite _) => q = p
  | _ => false

/-- Number of occurrences of a diagnostic event in an emitted log. -/
def countEvent (e : LogEvent) : List LogEvent → Nat
  | [] => 0
  | x :: xs => (if x = e then 1 else 0) + countEvent e xs

/-- Published state directory modelled as a map from key file name to its
current content, `none` when the key file has never been written. -/
def Store : Type := String → Option String

/-- Embedding of `write_str` (main.rs lines 68-93): absent values return
before any filesystem operation; present values atomically replace the key
file's content with the value followed by a newline. -/
def writeStr (store : Store) (varName : String) (val : Option String) : Store :=
  match val with
  | none => store
  | some v => fun k => if k = varName then some (v ++ "\n") else store k

/-- Embedding of `write_f64` (main.rs lines 95-99): writes the decimal
rendering of the value through `write_str`, nothing when absent. -/
def writeF64 (store : Store) (varName : String) (val : Option ℚ) : Store :=
  match val with
  | none => store
  | some v => writeStr store varName (some (toString v))

/-- One tick's publishing phase (main.rs lines 374-384): the five derived
keys written in source order. -/
def publishTick (store : Store) (ac : Option String) (bp : Option ℚ)
    (bs : Option String) (secsFull secsShutdown : Option ℚ) : Store :=
  let s1 := writeStr store "ac_status" ac
  let s2 := writeF64 s1 "battery_percent" bp
  let s3 := writeStr s2 "battery_status" bs
  let s4 := writeF64 s3 "secs_until_battery_full" secsFull
  writeF64 s4 "secs_until_shutdown_request" secsShutdown

/-- Result of invoking the `poweroff` command: the spawn itself can fail, or
the command exits with a status whose `success()` flag is recorded. -/
inductive CommandResult where
  | spawnError (err : String)
  | exited (success : Bool)
  deriving DecidableEq, Repr

/-- How a tick of the driver loop ends: proceed to the next tick, end the
process normally, or abort with a panic message. -/
inductive TickOutcome where
  | next : TickOutcome
  | exitNormally : TickOutcome
  | aborted (msg : String) : TickOutcome
  deriving DecidableEq, Repr

/-- The trigger condition of the shutdown controller (main.rs line 387):
`secs_until_shutdown_request.map_or(false, |x| x == 0.0)`. -/
def shutdownFires (req : Option ℚ) : Bool :=
  match req with
  | some x => decide (x = 0)
  | none => false

/-- What the shutdown controller does on a tick (main.rs lines 386-400),
given the tick's `secs_until_shutdown_request`, the configured grace period
and the result of the `poweroff` invocation. -/
structure ShutdownAction where
  fired : Bool
  graceSleepSecs : Option ℚ
  outcome : TickOutcome
  deriving DecidableEq, Repr

/-- Embedding of the force-shutdown block (main.rs lines 386-400): when the
trigger condition holds it sleeps the whole grace period unconditionally,
then runs `poweroff`; success returns from `main`, a spawn failure or an
unsuccessful exit status panics. Otherwise the loop continues. -/
def forceShutdownStep (req : Option ℚ) (grace : ℚ) (cmd : CommandResult) :
    ShutdownAction :=
  if shutdownFires req then
    ⟨true, some grace,
      match cmd with
      | CommandResult.spawnError e => TickOutcome.aborted ("poweroff: " ++ e)
      | CommandResult.exited true => TickOutcome.exitNormally
      | CommandResult.exited false =>
          TickOutcome.aborted "poweroff: non-zero exit status"⟩
  else
    ⟨false, none, TickOutcome.next⟩

/-- Formulation of `secs_until_shutdown_request` following the words of the
specification claim: threshold `charge_full * percent / 100`, the projection
formula above it, and below it `0.0` unless the AC status is `Connected`,
where the sentinel `1.0` suppresses the shutdown. Written to be compared
with the source-derived `secsUntilShutdownRequest`. -/
def secsUntilShutdownRequestSpec (chargeNow chargeFull vmd pn : Option ℚ)
    (rsbp : ℚ) (ac : Option String) : Option ℚ :=
  match chargeNow, chargeFull, vmd, pn with
  | some cn, some cf, some v, some p =>
      let cs := cf * rsbp / 100
      if cn > cs then some ((cn - cs) * v / p * 3600)
      else if ac = some "Connected" then some 1 else some 0
  | _, _, _, _ => none

/-- Formulation of `battery_status` following the words of the specification
claim: hardware "Full"/"Discharging" first, "Charging" gated on a Connected
AC status, then the strict percent trend, then the 89.5 near-full threshold
on the current percent. Written to be compared with the source-derived
`batteryStatus`. -/
def batteryStatusSpec (ac status : Option String)
    (bp prevBp : Option ℚ) : Option String :=
  if status = some "Full" then some "Full"
  else if status = some "Discharging" then some "Discharging"
  else if status = some "Charging" ∧ ac = some "Connected" then some "Charging"
  else
    match bp, prevBp with
    | some cur, some prev =>
        if cur > prev then some "Charging"
        else if cur < prev then some "Discharging"
        else if cur ≥ 89.5 then some "Full" else none
    | some cur, none => if cur ≥ 89.5 then some "Full" else none
    | none, _ => none

/-- Formulation of the `ac_status` fallbacks following the words of the
specification claim, amended only in that an unrecognized hardware status
string yields an absent status rather than "Unknown". Written to be compared
with the source-derived `acStatus` when no PD contract status is available. -/
def acStatusFallbackSpec (online status : Option String) : Option String :=
  match online with
  | some s =>
      if s = "0" then some "Disconnected"
      else if s = "1" then some "Connected"
      else some "Disconnected"
  | none =>
      match status with
      | some s =>
          if s = "Full" ∨ s = "Charging" then some "Connected"
          else if s = "Discharging" then some "Disconnected"
          else none
      | none => none

/-- Claim C1, counterexample: with the PD contract reporting connected and
sink (pdcs = 1), PD power 5 W, and the previous tick's AC status Disconnected
(a fresh plug-in), the code derives "Connected", not "Connected slow" as the
claim states. -/
theorem acStatus_fresh_lowpower_cex :
    acStatus (some 1) (some 5) (some 1) (some "Disconnected") none none
        = some "Connected"
    ∧ acStatus (some 1) (some 5) (some 1) (some "Disconnected") none none
        ≠ some "Connected slow" := by
  have h0 : Nat.testBit 1 0 = true := by decide
  have h4 : Nat.testBit 1 4 = false := by decide
  constructor <;> norm_num [acStatus, h0, h4]
  decide

/-- Claim C1, amended: when the PD contract status has bit 0 set and bit 4
cleared, the derived ac_status is "Connected slow" exactly when the previous
tick's AC status was NOT Disconnected and the PD power is strictly inside
(0, 30) watts; in every other connected-and-sink case it is "Connected" (the
low-power reading of a fresh plug-in transition is ignored). -/
theorem acStatus_pd_slow_characterization (p : Nat) (pdvl pdam : Option ℚ)
    (prev online status : Option String)
    (hc : p.testBit 0 = true) (hs : p.testBit 4 = false) :
    (acStatus (some p) pdvl pdam prev online status = some "Connected slow"
      ↔ prev ≠ some "Disconnected"
          ∧ 0 < pdPower pdvl pdam ∧ pdPower pdvl pdam < 30)
    ∧ (acStatus (some p) pdvl pdam prev online status = some "Connected slow"
        ∨ acStatus (some p) pdvl pdam prev online status = some "Connected") := by
  by_cases h : prev ≠ some "Disconnected"
      ∧ 0 < pdPower pdvl pdam ∧ pdPower pdvl pdam < 30
  · simp [acStatus, hc, hs, h]
  · simp [acStatus, hc, hs, h]

/-- Witness for C1's amended theorem: pdcs = 1, 5 V at 1 A (5 W) and a
previous status of "Connected" (the tick after the fresh transition) yield
"Connected slow". -/
theorem acStatus_pd_slow_characterization_witness :
    acStatus (some 1) (some 5) (some 1) (some "Connected") none none
      = some "Connected slow" :=
  (acStatus_pd_slow_characterization 1 (some 5) (some 1) (some "Connected")
      none none (by decide) (by decide)).1.mpr
    (by refine ⟨by simp, ?_, ?_⟩ <;> norm_num [pdPower])

/-- Claim C2: evaluating the `power_now` derivation with `voltage_now`
present but both `current_now` and `power_now_from_file` absent reaches the
source's `expect` and aborts the tick with a panic, contradicting the
never-abort propagation policy. -/
theorem powerNow_missing_aborts :
    powerNow (some 5) none none
      = Fallible.fatal "Error: Missing necessary data: power_now_from_file" :=
  rfl

/-- Claim C5, counterexample: with `charge_now = 5` and `charge_full = 0`
both present, the code still publishes a battery percent (the division is
unguarded), while the claim requires the value to be absent when
`charge_full` is zero. -/
theorem batteryPercent_zero_full_cex :
    (batteryPercent (some 5) (some 0)).isSome = true :=
  rfl

/-- Claim C5, amended: `battery_percent` is `charge_now / charge_full * 100`
whenever both readings are present (the readers already guarantee each is
finite) and absent exactly when one of them is absent; there is no guard on
`charge_full` being nonzero, so a present-but-zero `charge_full` still
produces a published value (in `f64` arithmetic, a non-finite one). -/
theorem batteryPercent_unguarded :
    (∀ n f : ℚ, batteryPercent (some n) (some f) = some (n / f * 100))
    ∧ (∀ n : ℚ, batteryPercent (some n) none = none)
    ∧ (∀ f : Option ℚ, batteryPercent none f = none) := by
  refine ⟨fun n f => rfl, fun n => rfl, fun f => ?_⟩
  cases f <;> rfl

/-- Claim C6, counterexample: with finite readings `charge_now = 2` and
`charge_full = 1` the published percent is 200, outside [0, 100]; the code
does not clamp. -/
theorem batteryPercent_over100_cex :
    batteryPercent (some 2) (some 1) = some 200 ∧ ¬ ((200 : ℚ) ≤ 100) := by
  constructor <;> norm_num [batteryPercent]

/-- Claim C6, amended: the published `battery_percent` lies in [0, 100] when
the hardware readings satisfy `0 ≤ charge_now ≤ charge_full` with
`charge_full` positive; for readings outside that envelope (such as
`charge_now > charge_full`) the unclamped quotient leaves the interval. -/
theorem batteryPercent_in_range (n f : ℚ) (h0 : 0 ≤ n) (h1 : n ≤ f)
    (hf : 0 < f) :
    batteryPercent (some n) (some f) = some (n / f * 100)
    ∧ 0 ≤ n / f * 100 ∧ n / f * 100 ≤ 100 := by
  refine ⟨rfl, ?_, ?_⟩
  · have h2 : 0 ≤ n / f := div_nonneg h0 hf.le
    nlinarith
  · have h2 : n / f ≤ 1 := (div_le_one hf).mpr h1
    nlinarith

/-- Witness for C6's amended theorem at charge_now = 1, charge_full = 2. -/
theorem batteryPercent_in_range_witness :
    batteryPercent (some 1) (some 2) = some (1 / 2 * 100)
    ∧ 0 ≤ (1 : ℚ) / 2 * 100 ∧ (1 : ℚ) / 2 * 100 ≤ 100 :=
  batteryPercent_in_range 1 2 (by norm_num) (by norm_num) (by norm_num)

/-- Claim C3: the source derivation of `secs_until_shutdown_request`, fed the
source's `charge_shutdown`, agrees with the claim's formulation on every
input: above the threshold the projection formula, at or below it the 0.0
trigger unless the AC status is Connected where the sentinel 1.0 is returned,
and absent whenever one of the four operands is absent. -/
theorem secsUntilShutdownRequest_correct (cn cf vmd pn : Option ℚ) (rsbp : ℚ)
    (ac : Option String) :
    secsUntilShutdownRequest cn (chargeShutdown cf rsbp) vmd pn ac
      = secsUntilShutdownRequestSpec cn cf vmd pn rsbp ac := by
  rcases cn with _ | a
  · rfl
  rcases cf with _ | b
  · rfl
  rcases vmd with _ | c
  · rfl
  rcases pn with _ | d
  · rfl
  simp only [secsUntilShutdownRequest, secsUntilShutdownRequestSpec,
    chargeShutdown, Option.map_some']
  have hcs : b * (rsbp / 100) = b * rsbp / 100 := (mul_div_assoc b rsbp 100).symm
  rw [hcs]
  by_cases h : a > b * rsbp / 100
  · rw [if_pos h, if_pos h]
  · rw [if_neg h, if_neg h]
    rcases ac with _ | s
    · rfl
    · by_cases hx : s = "Connected"
      · subst hx; rfl
      · rw [if_neg (by simp [hx])]
        split <;> simp_all

/-- Claim C7: the source derivation of `battery_status` agrees with the
claim's priority-ordered formulation on every input, and the particular
instance percent = 91 with no trend and hardware string "Not charging"
yields Full. -/
theorem batteryStatus_correct :
    (∀ (ac status : Option String) (bp prevBp : Option ℚ),
        batteryStatus ac status bp prevBp = batteryStatusSpec ac status bp prevBp)
    ∧ batteryStatus (some "Disconnected") (some "Not charging") (some 91) none
        = some "Full" := by
  have main : ∀ (ac status : Option String) (bp prevBp : Option ℚ),
      batteryStatus ac status bp prevBp = batteryStatusSpec ac status bp prevBp := by
    intro ac status bp prevBp
    unfold batteryStatus batteryStatusSpec
    split
    · simp
    · simp
    · simp
    · rename_i hx h1 h2
      have h3 : ¬(status = some "Charging" ∧ ac = some "Connected") := by
        rintro ⟨hc, ha⟩; exact h2 ha hc
      have hx' : status ≠ some "Full" := hx
      have h1' : status ≠ some "Discharging" := h1
      rcases bp with _ | cur <;> rcases prevBp with _ | prev
      · simp [hx', h1', h3]
        norm_num
      · simp [hx', h1', h3]
        norm_num
      · simp [hx', h1', h3]
      · simp only [hx', h1', h3]
        rcases lt_trichotomy cur prev with h | h | h
        · simp [hx', h1', h3, h, h.asymm]
        · subst h
          simp [hx', h1', h3, lt_irrefl]
        · simp [hx', h1', h3, h, h.asymm]
  refine ⟨main, ?_⟩
  rw [main]
  norm_num [batteryStatusSpec]
  decide

/-- Claim C8, counterexample: with no PD contract status, an unreadable
online file and the hardware status string "Not charging", the code derives
no ac_status at all (nothing is published), not the "Unknown" status the
claim states. -/
theorem acStatus_fallback_unknown_cex :
    acStatus none none none none none (some "Not charging") = none
    ∧ (none : Option String) ≠ some "Unknown" := by
  constructor
  · rfl
  · simp

/-- Claim C8, amended: with no PD contract status the code falls back to the
online file (content "0" gives Disconnected, "1" gives Connected, any other
content also Disconnected) and, when that file is unreadable, to the
hardware status string ("Full" or "Charging" give Connected, "Discharging"
gives Disconnected, and any other string gives an absent status - nothing is
published - rather than Unknown). -/
theorem acStatus_fallback_correct (pdvl pdam : Option ℚ)
    (prev online status : Option String) :
    acStatus none pdvl pdam prev online status
      = acStatusFallbackSpec online status := by
  rcases online with _ | o
  · rcases status with _ | s
    · rfl
    · by_cases hF : s = "Full"
      · subst hF; rfl
      · by_cases hC : s = "Charging"
        · subst hC; rfl
        · by_cases hD : s = "Discharging"
          · subst hD; rfl
          · simp only [acStatus, acStatusFallbackSpec]
            rw [if_neg (by simp [hF, hC]), if_neg hD]
            split <;> simp_all
  · by_cases h0 : o = "0"
    · subst h0; rfl
    · by_cases h1 : o = "1"
      · subst h1; rfl
      · simp only [acStatus, acStatusFallbackSpec]
        rw [if_neg h0, if_neg h1]

/-- Claim C4: the shutdown controller fires exactly when the tick's
`secs_until_shutdown_request` is present and equals 0.0; on firing it sleeps
the full configured grace period unconditionally and then the `poweroff`
result decides the process's fate - success ends it normally, a spawn
failure or unsuccessful exit status aborts it - while on a non-firing tick
the loop simply continues. -/
theorem forceShutdown_characterization (req : Option ℚ) (grace : ℚ)
    (cmd : CommandResult) :
    (shutdownFires req = true ↔ req = some 0)
    ∧ ((forceShutdownStep req grace cmd).fired = shutdownFires req)
    ∧ (shutdownFires req = false →
        forceShutdownStep req grace cmd = ⟨false, none, TickOutcome.next⟩)
    ∧ (shutdownFires req = true →
        (forceShutdownStep req grace cmd).graceSleepSecs = some grace)
    ∧ (shutdownFires req = true →
        ((forceShutdownStep req grace cmd).outcome = TickOutcome.exitNormally
          ↔ cmd = CommandResult.exited true))
    ∧ (shutdownFires req = true → ∀ e, cmd = CommandResult.spawnError e →
        (forceShutdownStep req grace cmd).outcome
          = TickOutcome.aborted ("poweroff: " ++ e))
    ∧ (shutdownFires req = true → cmd = CommandResult.exited false →
        (forceShutdownStep req grace cmd).outcome
          = TickOutcome.aborted "poweroff: non-zero exit status") := by
  refine ⟨?_, ?_, ?_, ?_, ?_, ?_, ?_⟩
  · cases req <;> simp [shutdownFires]
  · cases hf : shutdownFires req <;> simp [forceShutdownStep, hf]
  · intro hf
    simp [forceShutdownStep, hf]
  · intro hf
    simp [forceShutdownStep, hf]
  · intro hf
    rcases cmd with e | b
    · simp [forceShutdownStep, hf]
    · cases b <;> simp [forceShutdownStep, hf]
  · intro hf e he
    subst he
    simp [forceShutdownStep, hf]
  · intro hf he
    subst he
    simp [forceShutdownStep, hf]

/-- Helper: `countEvent` distributes over list concatenation. -/
theorem countEvent_append (e : LogEvent) (l1 l2 : List LogEvent) :
    countEvent e (l1 ++ l2) = countEvent e l1 + countEvent e l2 := by
  induction l1 with
  | nil => simp [countEvent]
  | cons x xs ih => simp [countEvent, ih]; omega

/-- Helper: across any run, the missing-path diagnostic for path `p` is
emitted at most once, and not at all when `p` is already in the warned set. -/
theorem count_readWarn_le (ops : List ReadOp) (p : String) :
    ∀ failed : Finset String,
      countEvent (LogEvent.readWarn p) (runReads ops failed).1
        ≤ if p ∈ failed then 0 else 1 := by
  induction ops with
  | nil =>
      intro failed
      simp [runReads, countEvent]
  | cons op rest ih =>
      intro failed
      rcases op with ⟨q, o⟩ | ⟨q, o⟩
      · rcases o with m | m | sh | v
        · by_cases hq : q ∈ failed
          · simpa [runReads, readBatteryF64, hq, countEvent] using ih failed
          · by_cases hpq : p = q
            · subst hpq
              have h2 := ih (insert p failed)
              simp [Finset.mem_insert] at h2
              simp [runReads, readBatteryF64, hq, countEvent_append, countEvent,
                h2]
              try omega
            · have h2 := ih (insert q failed)
              simp [Finset.mem_insert, hpq] at h2
              simpa [runReads, readBatteryF64, hq, countEvent_append, countEvent,
                Ne.symm hpq] using h2
        · simpa [runReads, readBatteryF64, countEvent_append, countEvent]
            using ih failed
        · simpa [runReads, readBatteryF64, countEvent_append, countEvent]
            using ih failed
        · simpa [runReads, readBatteryF64, countEvent, countEvent_append]
            using ih failed
      · rcases o with _ | s
        · by_cases hq : q ∈ failed
          · simpa [runReads, readBatteryString, hq, countEvent] using ih failed
          · by_cases hpq : p = q
            · subst hpq
              have h2 := ih (insert p failed)
              simp [Finset.mem_insert] at h2
              simp [runReads, readBatteryString, hq, countEvent_append,
                countEvent, h2]
              try omega
            · have h2 := ih (insert q failed)
              simp [Finset.mem_insert, hpq] at h2
              simpa [runReads, readBatteryString, hq, countEvent_append,
                countEvent, Ne.symm hpq] using h2
        · simpa [runReads, readBatteryString, countEvent, countEvent_append]
            using ih failed

/-- Helper: every present-but-malformed f64 read of path `p` emits its
diagnostic, independently of the warned-path set. -/
theorem count_malformed_eq (ops : List ReadOp) (p : String) :
    ∀ failed : Finset String,
      countEvent (LogEvent.parseWarn p) (runReads ops failed).1
        + countEvent (LogEvent.finiteWarn p) (runReads ops failed).1
        = (ops.filter (isMalformed p)).length := by
  induction ops with
  | nil =>
      intro failed
      simp [runReads, countEvent]
  | cons op rest ih =>
      intro failed
      rcases op with ⟨q, o⟩ | ⟨q, o⟩
      · rcases o with m | m | sh | v
        · by_cases hq : q ∈ failed <;>
            simpa [runReads, readBatteryF64, hq, countEvent_append, countEvent,
              isMalformed] using ih _
        · by_cases hpq : q = p
          · subst hpq
            have h2 := ih failed
            simp [runReads, readBatteryF64, countEvent_append, countEvent,
              isMalformed]
            omega
          · simpa [runReads, readBatteryF64, countEvent_append, countEvent,
              isMalformed, hpq] using ih failed
        · by_cases hpq : q = p
          · subst hpq
            have h2 := ih failed
            simp [runReads, readBatteryF64, countEvent_append, countEvent,
              isMalformed]
            omega
          · simpa [runReads, readBatteryF64, countEvent_append, countEvent,
              isMalformed, hpq] using ih failed
        · simpa [runReads, readBatteryF64, countEvent_append, countEvent,
            isMalformed] using ih failed
      · rcases o with _ | s
        · by_cases hq : q ∈ failed <;>
            simpa [runReads, readBatteryString, hq, countEvent_append,
              countEvent, isMalformed] using ih _
        · simpa [runReads, readBatteryString, countEvent_append, countEvent,
            isMalformed] using ih failed

/-- Claim C9: over the whole life of the process (any sequence of telemetry
reads starting from the empty warned-path set), the unreadable-path
diagnostic is emitted at most once per distinct path, while a
present-but-malformed value (unparsable or non-finite) is logged on every
occurrence, whatever the warned-path set holds. -/
theorem diagnostics_policy :
    (∀ (ops : List ReadOp) (p : String),
        countEvent (LogEvent.readWarn p) (runReads ops ∅).1 ≤ 1)
    ∧ (∀ (ops : List ReadOp) (failed : Finset String) (p : String),
        countEvent (LogEvent.parseWarn p) (runReads ops failed).1
          + countEvent (LogEvent.finiteWarn p) (runReads ops failed).1
          = (ops.filter (isMalformed p)).length) := by
  constructor
  · intro ops p
    have h := count_readWarn_le ops p ∅
    simpa using h
  · intro ops failed p
    exact count_malformed_eq ops p failed

/-- Helper: a write of an absent value leaves the store untouched. -/
theorem writeStr_absent (store : Store) (var : String) :
    writeStr store var none = store := rfl

/-- Helper: a `write_f64` of an absent value leaves the store untouched. -/
theorem writeF64_absent (store : Store) (var : String) :
    writeF64 store var none = store := rfl

/-- Helper: a write to one key never changes the content of another key. -/
theorem writeStr_apply_ne (store : Store) (var k : String)
    (val : Option String) (h : k ≠ var) : writeStr store var val k = store k := by
  cases val <;> simp [writeStr, h]

/-- Helper: a `write_f64` to one key never changes another key. -/
theorem writeF64_apply_ne (store : Store) (var k : String) (val : Option ℚ)
    (h : k ≠ var) : writeF64 store var val k = store k := by
  cases val <;> simp [writeF64, writeStr, h]

/-- Claim C10: on any tick, each published key whose derived value is absent
is not written at all - its previously published content is exactly
preserved by the tick's publishing phase, so a consumer keeps observing the
last successfully derived value. -/
theorem publishTick_absent_frame (store : Store) (ac : Option String)
    (bp : Option ℚ) (bs : Option String) (sf ss : Option ℚ) :
    (ac = none →
      publishTick store ac bp bs sf ss "ac_status" = store "ac_status")
    ∧ (bp = none →
      publishTick store ac bp bs sf ss "battery_percent"
        = store "battery_percent")
    ∧ (bs = none →
      publishTick store ac bp bs sf ss "battery_status"
        = store "battery_status")
    ∧ (sf = none →
      publishTick store ac bp bs sf ss "secs_until_battery_full"
        = store "secs_until_battery_full")
    ∧ (ss = none →
      publishTick store ac bp bs sf ss "secs_until_shutdown_request"
        = store "secs_until_shutdown_request") := by
  refine ⟨?_, ?_, ?_, ?_, ?_⟩ <;> intro h <;> subst h <;> simp only [publishTick]
  · rw [writeF64_apply_ne _ _ _ _ (by decide),
      writeF64_apply_ne _ _ _ _ (by decide),
      writeStr_apply_ne _ _ _ _ (by decide),
      writeF64_apply_ne _ _ _ _ (by decide), writeStr_absent]
  · rw [writeF64_apply_ne _ _ _ _ (by decide),
      writeF64_apply_ne _ _ _ _ (by decide),
      writeStr_apply_ne _ _ _ _ (by decide), writeF64_absent,
      writeStr_apply_ne _ _ _ _ (by decide)]
  · rw [writeF64_apply_ne _ _ _ _ (by decide),
      writeF64_apply_ne _ _ _ _ (by decide), writeStr_absent,
      writeF64_apply_ne _ _ _ _ (by decide),
      writeStr_apply_ne _ _ _ _ (by decide)]
  · rw [writeF64_apply_ne _ _ _ _ (by decide), writeF64_absent,
      writeStr_apply_ne _ _ _ _ (by decide),
      writeF64_apply_ne _ _ _ _ (by decide),
      writeStr_apply_ne _ _ _ _ (by decide)]
  · rw [writeF64_absent, writeF64_apply_ne _ _ _ _ (by decide),
      writeStr_apply_ne _ _ _ _ (by decide),
      writeF64_apply_ne _ _ _ _ (by decide),
      writeStr_apply_ne _ _ _ _ (by decide)]

end VPower
